import Mathlib

/-!
# The weather page's click handler (`Extra_Credit/app.js`)

A shallow embedding of the single `click` handler of the page script.  The handler reads two
inputs, issues one GET through axios, and then mutates the document (body class list, result
panel) and drives the map library.  Everything the handler cannot decide by itself is an
explicit input of the model:

* the outcome of the GET (`NetOutcome`),
* the clock, the time zone rule and the locale of the browser (`Clock`),
* which map-library call, if any, throws (`Env.mapFault`); the library's own rule, that
  `L.map` throws on a container which already holds a map, is `leafletFault`.

The document is a `Page`; a `World` adds the console, the map-library calls made and the
requests issued, and keeps every page state reached (`World.history`), so that statements
about the points between the handler's statements can be made.

Two runs started by rapid clicks overlap only in their `await`: the part of a run that
follows the `await` touches the document and contains no further suspension point, so it
executes as one block.  A sequence of clicks is therefore a sequence of such blocks.
-/

namespace WeatherApp

set_option maxRecDepth 100000

/-! ## JavaScript values -/

/-- A number, given by the decimal `mant / 10 ^ scale` that identifies it: the digits are
the ones the engine prints for it, the shortest decimal that reads back as the same
double. -/
structure JsNum where
  mant : Int
  scale : Nat
deriving DecidableEq

/-- The values the handler meets: what `JSON.parse` produces, and `undefined` for a
property that is not there. -/
inductive JsVal where
  | undefined
  | null
  | bool (b : Bool)
  | num (n : JsNum)
  | str (s : String)
  | arr (items : List JsVal)
  | obj (fields : List (String × JsVal))

/-- What a failing step throws. -/
inductive Err where
  | network
  | badStatus (status : Nat)
  | typeError (detail : String)
  | mapLibrary (call : Nat)
deriving DecidableEq

/-- Own property `k` of a parsed object. -/
def lookupField (k : String) : List (String × JsVal) → Option JsVal
  | [] => none
  | (k', v) :: rest => if k' = k then some v else lookupField k rest

/-- The read `v.key`, for the property names the script reads (`weather`, `main`,
`description`, `name`, `temp`, `humidity`, `coord`, `lat`, `lon`, `timezone`): none of them
is defined on a prototype, so on anything but an object the result is `undefined`, and on
`undefined` and `null` the read throws. -/
def getProp (v : JsVal) (key : String) : Except Err JsVal :=
  match v with
  | .undefined => .error (.typeError ("Cannot read properties of undefined (reading " ++ key ++ ")"))
  | .null => .error (.typeError ("Cannot read properties of null (reading " ++ key ++ ")"))
  | .obj fields => .ok ((lookupField key fields).getD .undefined)
  | _ => .ok .undefined

/-- The read `v[0]`.  On a string it is the first code unit, as a string: for the script
only the fact that it is a string matters. -/
def getFirst (v : JsVal) : Except Err JsVal :=
  match v with
  | .undefined => .error (.typeError "Cannot read properties of undefined (reading 0)")
  | .null => .error (.typeError "Cannot read properties of null (reading 0)")
  | .arr items => .ok (items.headD .undefined)
  | .obj fields => .ok ((lookupField "0" fields).getD .undefined)
  | .str s => .ok (match s.data with | [] => .undefined | c :: _ => .str (String.singleton c))
  | _ => .ok .undefined

/-- Left padding of a digit string with zeros. -/
def padLeftZeros (width : Nat) (ds : List Char) : List Char :=
  List.replicate (width - ds.length) '0' ++ ds

/-- Removal of the zeros a digit string ends with. -/
def stripTrailingZeros (ds : List Char) : List Char :=
  (ds.reverse.dropWhile (fun c => c == '0')).reverse

/-- The exponent part of a number in exponent notation. -/
def exponentText (e : Int) : List Char :=
  (if e < 0 then '-' else '+') :: (toString e.natAbs).data

/-- `Number::toString` in radix 10.  With `k` significant digits and the value
`0.d₁…d_k × 10 ^ n`: the digits and `n - k` zeros when `k ≤ n ≤ 21`; the digits with a point
after the `n`-th when `0 < n ≤ 21`; `0.`, `-n` zeros and the digits when `-6 < n ≤ 0`; and
otherwise exponent notation with the exponent `n - 1`. -/
def numToString (n : JsNum) : String :=
  let a := n.mant.natAbs
  if a = 0 then "0" else
  let sign : List Char := if n.mant < 0 then ['-'] else []
  let all := (toString a).data
  let digits := stripTrailingZeros all
  let k : Int := digits.length
  let pos : Int := (all.length : Int) - (n.scale : Int)
  if k ≤ pos ∧ pos ≤ 21 then
    String.mk (sign ++ digits ++ List.replicate (pos - k).toNat '0')
  else if 0 < pos ∧ pos ≤ 21 then
    String.mk (sign ++ digits.take pos.toNat ++ '.' :: digits.drop pos.toNat)
  else if -6 < pos ∧ pos ≤ 0 then
    String.mk (sign ++ '0' :: '.' :: List.replicate (-pos).toNat '0' ++ digits)
  else if digits.length = 1 then
    String.mk (sign ++ digits ++ 'e' :: exponentText (pos - 1))
  else
    String.mk (sign ++ digits.take 1 ++ '.' :: digits.drop 1 ++ 'e' :: exponentText (pos - 1))

mutual
/-- `ToString`, as applied by a template literal.  A parsed object with an own `toString`
property shadows `Object.prototype.toString` with something that cannot be called, and the
conversion throws. -/
def toStr : JsVal → Except Err String
  | .undefined => .ok "undefined"
  | .null => .ok "null"
  | .bool b => .ok (if b then "true" else "false")
  | .num n => .ok (numToString n)
  | .str s => .ok s
  | .arr items => joinItems items
  | .obj fields =>
    match lookupField "toString" fields with
    | some _ => .error (.typeError "Cannot convert object to primitive value")
    | none => .ok "[object Object]"
/-- `Array.prototype.join` with the default separator. -/
def joinItems : List JsVal → Except Err String
  | [] => .ok ""
  | [x] => itemStr x
  | x :: y :: rest =>
    match itemStr x with
    | .error e => .error e
    | .ok a =>
      match joinItems (y :: rest) with
      | .error e => .error e
      | .ok b => .ok (a ++ "," ++ b)
/-- The text of one array element inside `join`: empty for `undefined` and `null`. -/
def itemStr : JsVal → Except Err String
  | .undefined => .ok ""
  | .null => .ok ""
  | .bool b => .ok (if b then "true" else "false")
  | .num n => .ok (numToString n)
  | .str s => .ok s
  | .arr items => joinItems items
  | .obj fields =>
    match lookupField "toString" fields with
    | some _ => .error (.typeError "Cannot convert object to primitive value")
    | none => .ok "[object Object]"
end

/-! ## Strings -/

/-- Lower-casing of one character.  Besides `A`–`Z`, two characters have a lower-case form
that contains an ASCII letter: U+0130 (`i` followed by U+0307) and U+212A (`k`).  Every other
character is left alone: its lower-case form holds no ASCII letter, so a search for an ASCII
word cannot tell the difference. -/
def lowerChar (c : Char) : List Char :=
  if c = Char.ofNat 0x130 then ['i', Char.ofNat 0x307]
  else if c = Char.ofNat 0x212A then ['k']
  else [c.toLower]

/-- `String.prototype.toLowerCase`. -/
def toLowerCase (s : String) : String :=
  String.mk (s.data.flatMap lowerChar)

/-- Substring search on character lists. -/
def includesChars (needle : List Char) : List Char → Bool
  | [] => needle.isEmpty
  | c :: cs => needle.isPrefixOf (c :: cs) || includesChars needle cs

/-- `String.prototype.includes`. -/
def includes (s word : String) : Bool :=
  includesChars word.data s.data

/-- The conversion to a primitive that the product `timezoneOffset * 1000` of line 36 applies
to its operand.  A parsed array or object has no primitive `valueOf`, so the conversion goes
on to `toString` and throws where that throws; nothing else can throw here. -/
def toPrimitive (v : JsVal) : Except Err Unit :=
  match v with
  | .arr items =>
    match joinItems items with
    | .error e => .error e
    | .ok _ => .ok ()
  | .obj fields =>
    match toStr (.obj fields) with
    | .error e => .error e
    | .ok _ => .ok ()
  | _ => .ok ()

/-- The call `v.toLowerCase()`: only a string has the method. -/
def callToLowerCase (v : JsVal) : Except Err String :=
  match v with
  | .str s => .ok (toLowerCase s)
  | .undefined => .error (.typeError "Cannot read properties of undefined (reading toLowerCase)")
  | .null => .error (.typeError "Cannot read properties of null (reading toLowerCase)")
  | _ => .error (.typeError "toLowerCase is not a function")

/-! ## The document -/

/-- The part of the document the handler touches. -/
structure Page where
  /-- Tokens of `document.body.className`. -/
  bodyClasses : List String
  /-- The `innerHTML` last assigned to `#weatherOutput`; `none` when the page has no such
  element. -/
  weatherOutput : Option String
  /-- Whether the page has an element with id `map`. -/
  mapContainer : Bool
deriving DecidableEq

/-- The assignment `document.body.className = ''`. -/
def clearBodyClass (p : Page) : Page :=
  { p with bodyClasses := [] }

/-- The call `document.body.classList.add(token)`. -/
def classListAdd (token : String) (p : Page) : Page :=
  { p with bodyClasses := if token ∈ p.bodyClasses then p.bodyClasses else p.bodyClasses ++ [token] }

/-- The assignment `document.getElementById('weatherOutput').innerHTML = html`, on a page
that has the element. -/
def setOutput (html : String) (p : Page) : Page :=
  { p with weatherOutput := some html }

/-- A call into the map library. -/
inductive MapCall where
  | map (containerId : String)
  | setView (lat lon : JsVal) (zoom : Nat)
  | tileLayer (urlTemplate attribution : String)
  | addTileLayer
  | marker (lat lon : JsVal)
  | addMarker
  | bindPopup (html : String)
  | openPopup

/-- A line of the console. -/
inductive LogEntry where
  | log (text : String) (values : List JsVal)
  | error (text : String)
  | errorValue (e : Err)

/-- The document together with what the handler has done to its surroundings. -/
structure World where
  page : Page
  console : List LogEntry
  mapCalls : List MapCall
  requests : List String
  /-- Every page state reached, oldest first. -/
  history : List Page

/-- A world in which nothing has happened yet. -/
def World.start (p : Page) : World :=
  { page := p, console := [], mapCalls := [], requests := [], history := [p] }

/-- A statement that changes the document. -/
def World.mutate (f : Page → Page) (w : World) : World :=
  { w with page := f w.page, history := w.history ++ [f w.page] }

/-- A call into the map library, recorded when it is made. -/
def World.invoke (c : MapCall) (w : World) : World :=
  { w with mapCalls := w.mapCalls ++ [c] }

/-- A line written to the console. -/
def World.print (l : LogEntry) (w : World) : World :=
  { w with console := w.console ++ [l] }

/-- The page states a run has added to the history. -/
def newSnapshots (before after : World) : List Page :=
  after.history.drop before.history.length

/-! ## The environment -/

/-- What the network does with the GET. -/
inductive NetOutcome where
  | noResponse
  | http (status : Nat) (data : JsVal)

/-- The object `axios.get` resolves with. -/
structure Response where
  status : Nat
  data : JsVal

/-- The call `await axios.get(url)` under the library's default `validateStatus`: the promise
rejects when there is no response and when the status is not 2xx. -/
def axiosGet : NetOutcome → Except Err Response
  | .noResponse => .error .network
  | .http status data =>
    if 200 ≤ status ∧ status < 300 then .ok { status := status, data := data }
    else .error (.badStatus status)

/-- The browser's clock, zone and locale. -/
structure Clock where
  /-- Epoch milliseconds of the first `new Date()` of line 35. -/
  now : Int
  /-- Epoch milliseconds of the second `new Date()` of line 35. -/
  offsetAt : Int
  /-- The zone rule: `getTimezoneOffset()` of a date at the given instant, in minutes. -/
  zone : Int → Int
  /-- The locale's text for an hour and a minute, both two-digit. -/
  render : Nat → Nat → String
  /-- The time value of `new Date(utc + v * 1000)` where the product goes through the
  engine's number parser or leaves the integers (`v` a string, an array, an object or a
  number with a fraction). -/
  irregular : JsVal → Option Int

/-- Everything around one run of the handler. -/
structure Env where
  net : NetOutcome
  clock : Clock
  /-- The position, among the map-library calls of the run, of the call that throws. -/
  mapFault : Option Nat

/-- What the handler reads from the form: `#cityInput`'s value and `#unitToggle`'s state. -/
structure Inputs where
  city : String
  useFahrenheit : Bool

/-! ## The handler, in source order -/

/-- Line 5. -/
def units (useFahrenheit : Bool) : String :=
  if useFahrenheit then "imperial" else "metric"

/-- Line 6. -/
def unitSymbol (useFahrenheit : Bool) : String :=
  if useFahrenheit then "°F" else "°C"

/-- Line 7. -/
def apiKey : String := "5fde1ec2900ff8ad6c9c9f28b0b7d060"

/-- Line 8. -/
def url (city : String) (useFahrenheit : Bool) : String :=
  "https://api.openweathermap.org/data/2.5/weather?q=" ++ city ++ "&appid=" ++ apiKey ++
    "&units=" ++ units useFahrenheit

/-- The expression `data.weather[0].main`. -/
def weatherMain (data : JsVal) : Except Err JsVal := do
  let weather ← getProp data "weather"
  let first ← getFirst weather
  getProp first "main"

/-- Line 15. -/
def readCondition (data : JsVal) : Except Err String := do
  let main ← weatherMain data
  callToLowerCase main

/-- Lines 21–31: the class chosen for a lower-cased condition. -/
def classify (condition : String) : String :=
  if includes condition "cloud" then "cloudy"
  else if includes condition "rain" || includes condition "drizzle" ||
      includes condition "thunderstorm" then "rainy"
  else if includes condition "snow" then "snow"
  else if includes condition "clear" then "clear"
  else "sunny"

/-- Lines 18–31. -/
def classifyStep (condition : String) (w : World) : World :=
  (w.mutate clearBodyClass).mutate (classListAdd (classify condition))

/-- Line 35: `utc`. -/
def utc (now off : Int) : Int :=
  now + off * 60000

/-- Line 36: the argument of `new Date(…)` for a city offset of `tz` seconds. -/
def localInstant (now off tz : Int) : Int :=
  utc now off + tz * 1000

/-- The range of a `Date`: outside it the date is invalid. -/
def timeClip (t : Int) : Option Int :=
  if t.natAbs ≤ 8640000000000000 then some t else none

/-- Lines 34–36: the time value of `localDate`, `none` for an invalid date, for an operand
whose conversion to a primitive (`toPrimitive`) does not throw. -/
def localDate (clock : Clock) (timezoneOffset : JsVal) : Option Int :=
  let off := clock.zone clock.offsetAt
  match timezoneOffset with
  | .num n =>
    if n.mant % 10 ^ n.scale = 0 then timeClip (localInstant clock.now off (n.mant / 10 ^ n.scale))
    else clock.irregular timezoneOffset
  | .null => timeClip (localInstant clock.now off 0)
  | .bool b => timeClip (utc clock.now off + (if b then 1000 else 0))
  | .undefined => none
  | _ => clock.irregular timezoneOffset

/-- Hour and minute of a wall clock that reads `t` milliseconds. -/
def wallClock (t : Int) : Nat × Nat :=
  let minutes := (t / 60000) % 1440
  ((minutes / 60).toNat, (minutes % 60).toNat)

/-- Hour and minute a date at instant `t` shows in the browser's zone: the zone rule is
asked at `t` itself. -/
def displayedHM (zone : Int → Int) (t : Int) : Nat × Nat :=
  wallClock (t - zone t * 60000)

/-- Line 37. -/
def toLocaleTimeString (clock : Clock) (date : Option Int) : String :=
  match date with
  | none => "Invalid Date"
  | some t => clock.render (displayedHM clock.zone t).1 (displayedHM clock.zone t).2

/-- Lines 39–45, with the six interpolated texts already converted. -/
def weatherBlock (name temp symbol humidity description localTime : String) : String :=
  "\n        <h2>Weather in " ++ name ++ "</h2>\n        <p>Temperature: " ++ temp ++ symbol ++
    "</p>\n        <p>Humidity: " ++ humidity ++ "%</p>\n        <p>Conditions: " ++ description ++
    "</p>\n        <p>Local Time: " ++ localTime ++ "</p>\n      "

/-- Lines 39–45. -/
def renderOutput (data : JsVal) (symbol localTime : String) : Except Err String := do
  let name ← toStr (← getProp data "name")
  let temp ← toStr (← getProp (← getProp data "main") "temp")
  let humidity ← toStr (← getProp (← getProp data "main") "humidity")
  let description ← toStr (← getProp (← getFirst (← getProp data "weather")) "description")
  pure (weatherBlock name temp symbol humidity description localTime)

/-- Line 66: the popup's text. -/
def popupHtml (data : JsVal) : Except Err String := do
  let name ← toStr (← getProp data "name")
  let description ← toStr (← getProp (← getFirst (← getProp data "weather")) "description")
  pure ("<b>" ++ name ++ "</b><br>Weather: " ++ description)

/-- Line 72: the text shown after a failure. -/
def errorMessage : String := "<p>City not found or error fetching data.</p>"

/-- Line 60: the tile address template. -/
def tileUrl : String :=
  "https://\x7bs\x7d.tile.openstreetmap.org/\x7bz\x7d/\x7bx\x7d/\x7by\x7d.png"

/-- Line 61. -/
def tileAttribution : String :=
  "&copy; <a href=\"https://www.openstreetmap.org/copyright\">OpenStreetMap</a> contributors"

/-- Lines 34–46: the weather block is computed and written into the result panel. -/
def renderStep (inp : Inputs) (env : Env) (data : JsVal) (w : World) : World × Option Err :=
  match getProp data "timezone" with
  | .error e => (w, some e)
  | .ok timezoneOffset =>
    match toPrimitive timezoneOffset with
    | .error e => (w, some e)
    | .ok _ =>
      let localTime := toLocaleTimeString env.clock (localDate env.clock timezoneOffset)
      match renderOutput data (unitSymbol inp.useFahrenheit) localTime with
      | .error e => (w, some e)
      | .ok output =>
        match w.page.weatherOutput with
        | none => (w, some (.typeError "Cannot set properties of null (setting innerHTML)"))
        | some _ => (w.mutate (setOutput output), none)

/-- Lines 56–67: the calls into the map library, up to the first one that throws. -/
def mapCallsStep (fault : Option Nat) (data lat lon : JsVal) (w : World) : World × Option Err :=
  let w := w.invoke (.map "map")
  if fault = some 0 then (w, some (.mapLibrary 0)) else
  let w := w.invoke (.setView lat lon 13)
  if fault = some 1 then (w, some (.mapLibrary 1)) else
  let w := w.print (.log "Map initialized" [])
  let w := w.invoke (.tileLayer tileUrl tileAttribution)
  if fault = some 2 then (w, some (.mapLibrary 2)) else
  let w := w.invoke .addTileLayer
  if fault = some 3 then (w, some (.mapLibrary 3)) else
  let w := w.invoke (.marker lat lon)
  if fault = some 4 then (w, some (.mapLibrary 4)) else
  let w := w.invoke .addMarker
  if fault = some 5 then (w, some (.mapLibrary 5)) else
  match popupHtml data with
  | .error e => (w, some e)
  | .ok html =>
    let w := w.invoke (.bindPopup html)
    if fault = some 6 then (w, some (.mapLibrary 6)) else
    let w := w.invoke .openPopup
    if fault = some 7 then (w, some (.mapLibrary 7)) else
    (w, none)

/-- Lines 49–70. -/
def mapStep (env : Env) (data : JsVal) (w : World) : World × Option Err :=
  match getProp data "coord" with
  | .error e => (w, some e)
  | .ok coord =>
    match getProp coord "lat" with
    | .error e => (w, some e)
    | .ok lat =>
      match getProp coord "lon" with
      | .error e => (w, some e)
      | .ok lon =>
        let w := w.print (.log "Map coordinates:" [lat, lon])
        if w.page.mapContainer then mapCallsStep env.mapFault data lat lon w
        else (w.print (.error "Map container not found"), none)

/-- Lines 11–70, the body of `try`: the world at the point where the body ends or throws,
and what it throws. -/
def tryBody (inp : Inputs) (env : Env) (w : World) : World × Option Err :=
  let w := { w with requests := w.requests ++ [url inp.city inp.useFahrenheit] }
  match axiosGet env.net with
  | .error e => (w, some e)
  | .ok response =>
    match readCondition response.data with
    | .error e => (w, some e)
    | .ok condition =>
      match renderStep inp env response.data (classifyStep condition w) with
      | (w, some e) => (w, some e)
      | (w, none) => mapStep env response.data w

/-- Lines 71–74, the `catch` clause.  Without a result panel line 72 throws in its turn, and
nothing catches that. -/
def catchClause (e : Err) (w : World) : World × Option Err :=
  match w.page.weatherOutput with
  | none => (w, some (.typeError "Cannot set properties of null (setting innerHTML)"))
  | some _ => ((w.mutate (setOutput errorMessage)).print (.errorValue e), none)

/-- The `click` handler, lines 2–75: the world it leaves and the exception that leaves it. -/
def clickHandler (inp : Inputs) (env : Env) (w : World) : World × Option Err :=
  match tryBody inp env w with
  | (w, none) => (w, none)
  | (w, some e) => catchClause e w

/-- One click: what the form holds and what the surroundings do. -/
structure Click where
  inp : Inputs
  env : Env

/-- A sequence of clicks, each run to its end. -/
def runClicks : List Click → World → World
  | [], w => w
  | c :: cs, w => runClicks cs (clickHandler c.inp c.env w).1

/-! ## The map library's container rule -/

/-- Whether a call is `setView`: the handler makes it only on a map that `L.map` has
returned. -/
def MapCall.isSetView : MapCall → Bool
  | .setView _ _ _ => true
  | _ => false

/-- Whether the container `map` already holds a map: an earlier `L.map('map')` has
returned. -/
def mapInitialised (w : World) : Bool :=
  w.mapCalls.any MapCall.isSetView

/-- The map library's rule for `L.map(id)`: on a container that already holds a map the call
throws (`Map container is already initialized.`).  Elsewhere the environment's own fault
stands. -/
def leafletFault (w : World) (env : Env) : Option Nat :=
  if mapInitialised w then some 0 else env.mapFault

/-- A click on a page whose map library follows the container rule. -/
def clickWithLeaflet (inp : Inputs) (env : Env) (w : World) : World × Option Err :=
  clickHandler inp { env with mapFault := leafletFault w env } w

/-- A sequence of clicks on such a page. -/
def runWithLeaflet : List Click → World → World
  | [], w => w
  | c :: cs, w => runWithLeaflet cs (clickWithLeaflet c.inp c.env w).1

/-! ## Vocabulary of the properties -/

/-- The closed set of condition classes. -/
def conditionClasses : List String := ["cloudy", "rainy", "snow", "clear", "sunny"]

/-- At most one condition class among the tokens. -/
def AtMostOneCondition (classes : List String) : Prop :=
  (classes.filter (fun c => decide (c ∈ conditionClasses))).length ≤ 1

instance (classes : List String) : Decidable (AtMostOneCondition classes) :=
  inferInstanceAs (Decidable (_ ≤ 1))

/-- The rule table as the specification words it: words to look for, and the class. -/
def ruleTable : List (List String × String) :=
  [(["cloud"], "cloudy"), (["rain", "drizzle", "thunderstorm"], "rainy"),
   (["snow"], "snow"), (["clear"], "clear")]

/-- The class of the first rule of a table with a word that occurs in the condition, and
`sunny` when there is none. -/
def firstMatch (condition : String) : List (List String × String) → String
  | [] => "sunny"
  | (words, cls) :: rules =>
    if words.any (fun word => includes condition word) then cls else firstMatch condition rules

/-- The values of a payload of the expected shape. -/
structure Reading where
  name : String
  timezone : Int
  lat : JsNum
  lon : JsNum
  temp : JsNum
  humidity : JsNum
  main : String
  description : String

/-- A payload of the shape `{name, timezone, coord:{lat,lon}, main:{temp,humidity},
weather:[{main,description}]}` holding the values `r`; further fields and further entries of
`weather` are allowed. -/
def Shaped (data : JsVal) (r : Reading) : Prop :=
  ∃ first rest block coord,
    getProp data "weather" = .ok (.arr (first :: rest)) ∧
    getProp first "main" = .ok (.str r.main) ∧
    getProp first "description" = .ok (.str r.description) ∧
    getProp data "name" = .ok (.str r.name) ∧
    getProp data "timezone" = .ok (.num ⟨r.timezone, 0⟩) ∧
    getProp data "main" = .ok block ∧
    getProp block "temp" = .ok (.num r.temp) ∧
    getProp block "humidity" = .ok (.num r.humidity) ∧
    getProp data "coord" = .ok coord ∧
    getProp coord "lat" = .ok (.num r.lat) ∧
    getProp coord "lon" = .ok (.num r.lon)

/-- The local time text of a run for a city offset of `tz` seconds. -/
def localTimeText (clock : Clock) (tz : Int) : String :=
  toLocaleTimeString clock (timeClip (localInstant clock.now (clock.zone clock.offsetAt) tz))

/-! ## Concrete inputs -/

/-- A browser in a zone without offset, showing `HH:MM`. -/
def utcClock : Clock :=
  { now := 1730610000000, offsetAt := 1730610000000, zone := fun _ => 0,
    render := fun h m => String.mk (padLeftZeros 2 (toString h).data) ++ ":" ++
      String.mk (padLeftZeros 2 (toString m).data),
    irregular := fun _ => none }

/-- The zone rule of New York around the end of daylight saving time on 2024-11-03: four
hours behind UTC until 06:00 UTC, five hours from then on. -/
def newYorkZone (t : Int) : Int :=
  if t < 1730613600000 then 240 else 300

/-- A browser in New York at 2024-11-03 05:00 UTC. -/
def newYorkClock : Clock :=
  { utcClock with zone := newYorkZone }

/-- The payload of the London scenario. -/
def londonData : JsVal :=
  .obj [("name", .str "London"), ("timezone", .num ⟨0, 0⟩),
    ("coord", .obj [("lat", .num ⟨515, 1⟩), ("lon", .num ⟨-12, 2⟩)]),
    ("main", .obj [("temp", .num ⟨15, 0⟩), ("humidity", .num ⟨70, 0⟩)]),
    ("weather", .arr [.obj [("main", .str "Rain"), ("description", .str "light rain")]])]

/-- The values of the London payload. -/
def londonReading : Reading :=
  { name := "London", timezone := 0, lat := ⟨515, 1⟩, lon := ⟨-12, 2⟩, temp := ⟨15, 0⟩,
    humidity := ⟨70, 0⟩, main := "Rain", description := "light rain" }

/-- The London payload without its coordinates. -/
def londonNoCoord : JsVal :=
  .obj [("name", .str "London"), ("timezone", .num ⟨0, 0⟩),
    ("main", .obj [("temp", .num ⟨15, 0⟩), ("humidity", .num ⟨70, 0⟩)]),
    ("weather", .arr [.obj [("main", .str "Rain"), ("description", .str "light rain")]])]

/-- A payload whose condition is `Clouds`. -/
def cloudsData : JsVal :=
  .obj [("weather", .arr [.obj [("main", .str "Clouds")]])]

/-- A page with both containers, fresh, with a class left by an earlier run. -/
def samplePage : Page :=
  { bodyClasses := ["snow"], weatherOutput := some "", mapContainer := true }

/-- The London scenario: toggle off, the GET answered with 200. -/
def londonEnv : Env :=
  { net := .http 200 londonData, clock := utcClock, mapFault := none }

/-- The London form. -/
def londonInputs : Inputs :=
  { city := "London", useFahrenheit := false }

/-! ## Substring search -/

theorem includesChars_of_occurs (needle a b : List Char) :
    includesChars needle (a ++ needle ++ b) = true := by
  induction a with
  | nil =>
    rw [List.nil_append]
    generalize h : needle ++ b = hay
    cases hay with
    | nil =>
      have hn : needle = [] := (List.append_eq_nil.mp h).1
      simp [includesChars, hn]
    | cons c cs =>
      have hp : needle.isPrefixOf (c :: cs) = true := by
        rw [← h]; simp
      simp [includesChars, hp]
  | cons c cs ih =>
    have : c :: cs ++ needle ++ b = c :: (cs ++ needle ++ b) := by simp
    rw [this, includesChars, ih]; simp

theorem occurs_of_includesChars (needle : List Char) :
    ∀ hay, includesChars needle hay = true → ∃ a b, hay = a ++ needle ++ b := by
  intro hay
  induction hay with
  | nil =>
    intro h
    simp [includesChars] at h
    exact ⟨[], [], by simp [h]⟩
  | cons c cs ih =>
    intro h
    simp only [includesChars, Bool.or_eq_true] at h
    rcases h with h | h
    · rw [List.isPrefixOf_iff_prefix] at h
      obtain ⟨t, ht⟩ := h
      exact ⟨[], t, by simp [ht]⟩
    · obtain ⟨a, b, hab⟩ := ih h
      exact ⟨c :: a, b, by simp [hab]⟩

theorem includes_iff (s word : String) :
    includes s word = true ↔ ∃ a b, s.data = a ++ word.data ++ b := by
  constructor
  · exact occurs_of_includesChars _ _
  · rintro ⟨a, b, h⟩
    unfold includes
    rw [h]
    exact includesChars_of_occurs _ _ _

/-- A condition that holds, in any letter case, an occurrence `v` of a word (`v` lower-cases
to the word) contains the word once lower-cased. -/
theorem includes_toLowerCase_of_occurrence (m word : String) (a v b : List Char)
    (hm : m.data = a ++ v ++ b) (hv : v.flatMap lowerChar = word.data) :
    includes (toLowerCase m) word = true := by
  unfold includes toLowerCase
  simp only [hm, List.flatMap_append, hv]
  exact includesChars_of_occurs _ _ _

theorem includes_cloud_examples :
    includes (toLowerCase "Clouds") "cloud" = true ∧
    includes (toLowerCase "CLOUDS") "cloud" = true ∧
    includes (toLowerCase "broken cLoUd cover") "cloud" = true ∧
    includes (toLowerCase "Clear") "cloud" = false := by
  decide

/-! ## What each stage leaves alone -/

theorem mapCallsStep_frame (fault : Option Nat) (data lat lon : JsVal) (w : World) :
    (mapCallsStep fault data lat lon w).1.page = w.page ∧
    (mapCallsStep fault data lat lon w).1.history = w.history ∧
    (mapCallsStep fault data lat lon w).1.requests = w.requests := by
  unfold mapCallsStep
  simp only [World.invoke, World.print]
  repeat' split
  all_goals exact ⟨rfl, rfl, rfl⟩

theorem mapStep_frame (env : Env) (data : JsVal) (w : World) :
    (mapStep env data w).1.page = w.page ∧
    (mapStep env data w).1.history = w.history ∧
    (mapStep env data w).1.requests = w.requests := by
  unfold mapStep
  cases getProp data "coord" with
  | error e => exact ⟨rfl, rfl, rfl⟩
  | ok coord =>
    dsimp only
    cases getProp coord "lat" with
    | error e => exact ⟨rfl, rfl, rfl⟩
    | ok lat =>
      dsimp only
      cases getProp coord "lon" with
      | error e => exact ⟨rfl, rfl, rfl⟩
      | ok lon =>
        dsimp only
        split
        · exact mapCallsStep_frame _ _ _ _ _
        · exact ⟨rfl, rfl, rfl⟩

theorem renderStep_frame (inp : Inputs) (env : Env) (data : JsVal) (w : World) :
    (renderStep inp env data w).1.page.bodyClasses = w.page.bodyClasses ∧
    (renderStep inp env data w).1.page.mapContainer = w.page.mapContainer ∧
    (renderStep inp env data w).1.requests = w.requests ∧
    (w.page.weatherOutput.isSome → (renderStep inp env data w).1.page.weatherOutput.isSome) ∧
    ∃ extra, (renderStep inp env data w).1.history = w.history ++ extra ∧
      ∀ p ∈ extra, p.bodyClasses = w.page.bodyClasses := by
  unfold renderStep
  cases getProp data "timezone" with
  | error e => exact ⟨rfl, rfl, rfl, id, [], by simp, by simp⟩
  | ok tz =>
    dsimp only
    cases toPrimitive tz with
    | error e => exact ⟨rfl, rfl, rfl, id, [], by simp, by simp⟩
    | ok u =>
      dsimp only
      cases renderOutput data (unitSymbol inp.useFahrenheit)
          (toLocaleTimeString env.clock (localDate env.clock tz)) with
      | error e => exact ⟨rfl, rfl, rfl, id, [], by simp, by simp⟩
      | ok output =>
        dsimp only
        cases h : w.page.weatherOutput with
        | none => exact ⟨rfl, rfl, rfl, fun hs => by simp at hs, [], by simp, by simp⟩
        | some old =>
          exact ⟨rfl, rfl, rfl, fun _ => rfl, [setOutput output w.page], rfl,
            by simp [setOutput]⟩

theorem catchClause_frame (e : Err) (w : World) :
    (catchClause e w).1.page.bodyClasses = w.page.bodyClasses ∧
    (catchClause e w).1.mapCalls = w.mapCalls ∧
    (catchClause e w).1.requests = w.requests ∧
    ∃ extra, (catchClause e w).1.history = w.history ++ extra ∧
      ∀ p ∈ extra, p.bodyClasses = w.page.bodyClasses := by
  unfold catchClause
  cases h : w.page.weatherOutput with
  | none => exact ⟨rfl, rfl, rfl, [], by simp, by simp⟩
  | some old => exact ⟨rfl, rfl, rfl, [setOutput errorMessage w.page], rfl, by simp [setOutput]⟩

theorem classifyStep_page (c : String) (w : World) :
    (classifyStep c w).page = { w.page with bodyClasses := [classify c] } := by
  simp [classifyStep, World.mutate, clearBodyClass, classListAdd]

theorem classifyStep_history (c : String) (w : World) :
    (classifyStep c w).history =
      w.history ++ [{ w.page with bodyClasses := [] }, { w.page with bodyClasses := [classify c] }] := by
  simp [classifyStep, World.mutate, clearBodyClass, classListAdd]

/-! ## The two ways a run can go -/

theorem tryBody_classified (inp : Inputs) (env : Env) (w : World) (resp : Response) (c : String)
    (hget : axiosGet env.net = .ok resp) (hc : readCondition resp.data = .ok c) :
    (tryBody inp env w).1.page.bodyClasses = [classify c] ∧
    ∃ rest, (tryBody inp env w).1.history =
        w.history ++ ({ w.page with bodyClasses := [] } ::
          { w.page with bodyClasses := [classify c] } :: rest) ∧
      ∀ p ∈ rest, p.bodyClasses = [classify c] := by
  obtain ⟨hb, -, -, -, extra, hh, hx⟩ := renderStep_frame inp env resp.data
    (classifyStep c { w with requests := w.requests ++ [url inp.city inp.useFahrenheit] })
  rw [classifyStep_page] at hb hx
  rw [classifyStep_history] at hh
  unfold tryBody
  simp only [hget, hc]
  cases hr : renderStep inp env resp.data
    (classifyStep c { w with requests := w.requests ++ [url inp.city inp.useFahrenheit] }) with
  | mk w' oe =>
    rw [hr] at hb hh
    cases oe with
    | some e =>
      dsimp only at hb hh ⊢
      exact ⟨hb, extra, by rw [hh]; simp, hx⟩
    | none =>
      dsimp only at hb hh ⊢
      obtain ⟨hp, hhist, -⟩ := mapStep_frame env resp.data w'
      rw [hp, hhist]
      exact ⟨hb, extra, by rw [hh]; simp, hx⟩

theorem tryBody_rejected (inp : Inputs) (env : Env) (w : World) (e : Err)
    (hget : axiosGet env.net = .error e) :
    tryBody inp env w =
      ({ w with requests := w.requests ++ [url inp.city inp.useFahrenheit] }, some e) := by
  unfold tryBody
  simp only [hget]

theorem tryBody_unreadable (inp : Inputs) (env : Env) (w : World) (resp : Response) (e : Err)
    (hget : axiosGet env.net = .ok resp) (hc : readCondition resp.data = .error e) :
    tryBody inp env w =
      ({ w with requests := w.requests ++ [url inp.city inp.useFahrenheit] }, some e) := by
  unfold tryBody
  simp only [hget, hc]

theorem clickHandler_classified (inp : Inputs) (env : Env) (w : World) (resp : Response)
    (c : String) (hget : axiosGet env.net = .ok resp) (hc : readCondition resp.data = .ok c) :
    (clickHandler inp env w).1.page.bodyClasses = [classify c] ∧
    ∃ rest, (clickHandler inp env w).1.history =
        w.history ++ ({ w.page with bodyClasses := [] } ::
          { w.page with bodyClasses := [classify c] } :: rest) ∧
      ∀ p ∈ rest, p.bodyClasses = [classify c] := by
  obtain ⟨hb, rest, hh, hx⟩ := tryBody_classified inp env w resp c hget hc
  unfold clickHandler
  cases ht : tryBody inp env w with
  | mk w' oe =>
    rw [ht] at hb hh
    cases oe with
    | none => exact ⟨hb, rest, hh, hx⟩
    | some e =>
      dsimp only at hb hh ⊢
      obtain ⟨cb, -, -, extra, ch, cx⟩ := catchClause_frame e w'
      refine ⟨cb.trans hb, rest ++ extra, ?_, ?_⟩
      · rw [ch, hh]; simp
      · intro p hp
        rcases List.mem_append.mp hp with h | h
        · exact hx p h
        · exact (cx p h).trans hb

theorem clickHandler_unclassified (inp : Inputs) (env : Env) (w : World) (e : Err)
    (ht : tryBody inp env w =
      ({ w with requests := w.requests ++ [url inp.city inp.useFahrenheit] }, some e)) :
    (clickHandler inp env w).1.page.bodyClasses = w.page.bodyClasses ∧
    (clickHandler inp env w).1.mapCalls = w.mapCalls ∧
    ∃ extra, (clickHandler inp env w).1.history = w.history ++ extra ∧
      ∀ p ∈ extra, p.bodyClasses = w.page.bodyClasses := by
  unfold clickHandler
  rw [ht]
  dsimp only
  obtain ⟨cb, cm, -, extra, ch, cx⟩ := catchClause_frame e
    { w with requests := w.requests ++ [url inp.city inp.useFahrenheit] }
  exact ⟨cb, cm, extra, ch, cx⟩

/-- Every run either stops before the classification, with the body untouched, or reaches it
with a readable condition. -/
theorem tryBody_cases (inp : Inputs) (env : Env) (w : World) :
    (∃ e, tryBody inp env w =
      ({ w with requests := w.requests ++ [url inp.city inp.useFahrenheit] }, some e)) ∨
    (∃ resp c, axiosGet env.net = .ok resp ∧ readCondition resp.data = .ok c) := by
  cases hget : axiosGet env.net with
  | error e => exact Or.inl ⟨e, tryBody_rejected inp env w e hget⟩
  | ok resp =>
    cases hc : readCondition resp.data with
    | error e => exact Or.inl ⟨e, tryBody_unreadable inp env w resp e hget hc⟩
    | ok c => exact Or.inr ⟨resp, c, rfl, hc⟩

/-! ## Reading the response -/

theorem axiosGet_success (status : Nat) (data : JsVal) (hlo : 200 ≤ status) (hhi : status < 300) :
    axiosGet (.http status data) = .ok { status := status, data := data } := by
  simp [axiosGet, hlo, hhi]

theorem readCondition_of_main (data : JsVal) (m : String)
    (hmain : weatherMain data = .ok (.str m)) :
    readCondition data = .ok (toLowerCase m) := by
  simp [readCondition, hmain, callToLowerCase, bind, Except.bind]

theorem newSnapshots_of_history (w w' : World) (extra : List Page)
    (h : w'.history = w.history ++ extra) : newSnapshots w w' = extra := by
  simp [newSnapshots, h]

/-- A successful response with a string condition: the body ends with the one class chosen
for the lower-cased condition. -/
theorem body_after_success (inp : Inputs) (env : Env) (w : World) (status : Nat) (data : JsVal)
    (m : String) (hnet : env.net = .http status data) (hlo : 200 ≤ status) (hhi : status < 300)
    (hmain : weatherMain data = .ok (.str m)) :
    (clickHandler inp env w).1.page.bodyClasses = [classify (toLowerCase m)] ∧
    ∃ rest, newSnapshots w (clickHandler inp env w).1 =
        { w.page with bodyClasses := [] } ::
          { w.page with bodyClasses := [classify (toLowerCase m)] } :: rest ∧
      ∀ p ∈ rest, p.bodyClasses = [classify (toLowerCase m)] := by
  have hget : axiosGet env.net = .ok { status := status, data := data } := by
    rw [hnet]; exact axiosGet_success status data hlo hhi
  obtain ⟨hb, rest, hh, hx⟩ := clickHandler_classified inp env w _ _ hget
    (readCondition_of_main data m hmain)
  exact ⟨hb, rest, newSnapshots_of_history _ _ _ hh, hx⟩

/-! ## The classification -/

theorem classify_cloud (c : String) (h : includes c "cloud" = true) : classify c = "cloudy" := by
  simp [classify, h]

theorem classify_eq_firstMatch (c : String) : classify c = firstMatch c ruleTable := by
  simp only [classify, firstMatch, ruleTable, List.any, Bool.or_false, Bool.or_eq_true]
  by_cases h1 : includes c "cloud" = true
  · simp [h1]
  · by_cases h2 : includes c "rain" = true ∨ includes c "drizzle" = true ∨
        includes c "thunderstorm" = true
    · have h2' : (includes c "rain" = true ∨ includes c "drizzle" = true) ∨
          includes c "thunderstorm" = true := by tauto
      simp [h1, h2, h2']
    · have h2' : ¬ ((includes c "rain" = true ∨ includes c "drizzle" = true) ∨
          includes c "thunderstorm" = true) := by tauto
      simp [h1, h2, h2']

theorem classify_rain_group (c : String) (hc : includes c "cloud" = false)
    (h : includes c "rain" = true ∨ includes c "drizzle" = true ∨
      includes c "thunderstorm" = true) : classify c = "rainy" := by
  unfold classify
  rcases h with h | h | h <;> simp [hc, h]

theorem classify_sunny_iff (c : String) :
    classify c = "sunny" ↔
      includes c "cloud" = false ∧ includes c "rain" = false ∧ includes c "drizzle" = false ∧
      includes c "thunderstorm" = false ∧ includes c "snow" = false ∧
      includes c "clear" = false := by
  unfold classify
  cases includes c "cloud" <;> cases includes c "rain" <;> cases includes c "drizzle" <;>
    cases includes c "thunderstorm" <;> cases includes c "snow" <;> cases includes c "clear" <;>
    decide

theorem classify_mem (c : String) : classify c ∈ conditionClasses := by
  unfold classify conditionClasses
  cases includes c "cloud" <;> cases includes c "rain" <;> cases includes c "drizzle" <;>
    cases includes c "thunderstorm" <;> cases includes c "snow" <;> cases includes c "clear" <;>
    decide

/-! ## C1 – C3 -/

/-- C1: for a successful response whose `weather[0].main` is a string containing `cloud` in
any letter case (its lower-cased form contains `cloud`), the body's class list is exactly
`["cloudy"]` from the classification step on: the run adds a cleared page state and then
only page states whose class list is `["cloudy"]`, and ends with that class list. -/
theorem cloud_condition_leaves_only_cloudy (inp : Inputs) (env : Env) (w : World)
    (status : Nat) (data : JsVal) (m : String) (hnet : env.net = .http status data)
    (hlo : 200 ≤ status) (hhi : status < 300) (hmain : weatherMain data = .ok (.str m))
    (hcloud : includes (toLowerCase m) "cloud" = true) :
    (clickHandler inp env w).1.page.bodyClasses = ["cloudy"] ∧
    ∃ cleared classified rest,
      newSnapshots w (clickHandler inp env w).1 = cleared :: classified :: rest ∧
      cleared.bodyClasses = [] ∧
      ∀ p ∈ classified :: rest, p.bodyClasses = ["cloudy"] := by
  obtain ⟨hb, rest, hs, hx⟩ := body_after_success inp env w status data m hnet hlo hhi hmain
  rw [classify_cloud _ hcloud] at hb hs hx
  refine ⟨hb, _, _, rest, hs, rfl, ?_⟩
  intro p hp
  rcases List.mem_cons.mp hp with h | h
  · rw [h]
  · exact hx p h

theorem cloud_condition_leaves_only_cloudy_witness :
    (clickHandler londonInputs { londonEnv with net := .http 200 cloudsData }
        (World.start samplePage)).1.page.bodyClasses = ["cloudy"] ∧
    ∃ cleared classified rest,
      newSnapshots (World.start samplePage)
        (clickHandler londonInputs { londonEnv with net := .http 200 cloudsData }
          (World.start samplePage)).1 = cleared :: classified :: rest ∧
      cleared.bodyClasses = [] ∧
      ∀ p ∈ classified :: rest, p.bodyClasses = ["cloudy"] :=
  cloud_condition_leaves_only_cloudy londonInputs { londonEnv with net := .http 200 cloudsData }
    (World.start samplePage) 200 cloudsData "Clouds" rfl (by decide) (by decide) rfl (by decide)

/-- C2: for every condition string of a successful response, the class applied to the body
is the class of the first rule, in the order cloud, (rain | drizzle | thunderstorm), snow,
clear, with a word contained in the lower-cased condition, and `sunny` when no rule has one;
a condition with `rain`, `drizzle` or `thunderstorm` and without `cloud` gives `rainy`, and a
condition with both `cloud` and `clear` gives `cloudy`. -/
theorem classification_follows_rule_table (inp : Inputs) (env : Env) (w : World)
    (status : Nat) (data : JsVal) (m : String) (hnet : env.net = .http status data)
    (hlo : 200 ≤ status) (hhi : status < 300) (hmain : weatherMain data = .ok (.str m)) :
    (clickHandler inp env w).1.page.bodyClasses = [firstMatch (toLowerCase m) ruleTable] ∧
    ((includes (toLowerCase m) "rain" = true ∨ includes (toLowerCase m) "drizzle" = true ∨
        includes (toLowerCase m) "thunderstorm" = true) →
      includes (toLowerCase m) "cloud" = false →
      (clickHandler inp env w).1.page.bodyClasses = ["rainy"]) ∧
    (includes (toLowerCase m) "cloud" = true → includes (toLowerCase m) "clear" = true →
      (clickHandler inp env w).1.page.bodyClasses = ["cloudy"]) := by
  obtain ⟨hb, -⟩ := body_after_success inp env w status data m hnet hlo hhi hmain
  refine ⟨?_, ?_, ?_⟩
  · rw [hb, classify_eq_firstMatch]
  · intro hr hc
    rw [hb, classify_rain_group _ hc hr]
  · intro hc _
    rw [hb, classify_cloud _ hc]

theorem classification_follows_rule_table_witness :
    (clickHandler londonInputs londonEnv (World.start samplePage)).1.page.bodyClasses =
      [firstMatch (toLowerCase "Rain") ruleTable] ∧
    ((includes (toLowerCase "Rain") "rain" = true ∨
        includes (toLowerCase "Rain") "drizzle" = true ∨
        includes (toLowerCase "Rain") "thunderstorm" = true) →
      includes (toLowerCase "Rain") "cloud" = false →
      (clickHandler londonInputs londonEnv (World.start samplePage)).1.page.bodyClasses =
        ["rainy"]) ∧
    (includes (toLowerCase "Rain") "cloud" = true →
      includes (toLowerCase "Rain") "clear" = true →
      (clickHandler londonInputs londonEnv (World.start samplePage)).1.page.bodyClasses =
        ["cloudy"]) :=
  classification_follows_rule_table londonInputs londonEnv (World.start samplePage) 200
    londonData "Rain" rfl (by decide) (by decide) rfl

/-- C3: for every condition string of a successful response, the class applied to the body
is `sunny` exactly when the lower-cased condition contains none of `cloud`, `rain`,
`drizzle`, `thunderstorm`, `snow`, `clear`; the empty condition is such a string. -/
theorem sunny_exactly_without_keyword (inp : Inputs) (env : Env) (w : World)
    (status : Nat) (data : JsVal) (m : String) (hnet : env.net = .http status data)
    (hlo : 200 ≤ status) (hhi : status < 300) (hmain : weatherMain data = .ok (.str m)) :
    ((clickHandler inp env w).1.page.bodyClasses = ["sunny"] ↔
      includes (toLowerCase m) "cloud" = false ∧ includes (toLowerCase m) "rain" = false ∧
      includes (toLowerCase m) "drizzle" = false ∧
      includes (toLowerCase m) "thunderstorm" = false ∧
      includes (toLowerCase m) "snow" = false ∧ includes (toLowerCase m) "clear" = false) ∧
    (m = "" → (clickHandler inp env w).1.page.bodyClasses = ["sunny"]) := by
  obtain ⟨hb, -⟩ := body_after_success inp env w status data m hnet hlo hhi hmain
  have key : (clickHandler inp env w).1.page.bodyClasses = ["sunny"] ↔
      classify (toLowerCase m) = "sunny" := by
    rw [hb]; simp
  refine ⟨key.trans (classify_sunny_iff _), ?_⟩
  intro hm
  subst hm
  exact key.mpr (by decide)

theorem sunny_exactly_without_keyword_witness :
    ((clickHandler londonInputs
        { londonEnv with net := .http 200 (.obj [("weather", .arr [.obj [("main", .str "")]])]) }
        (World.start samplePage)).1.page.bodyClasses = ["sunny"] ↔
      includes (toLowerCase "") "cloud" = false ∧ includes (toLowerCase "") "rain" = false ∧
      includes (toLowerCase "") "drizzle" = false ∧
      includes (toLowerCase "") "thunderstorm" = false ∧
      includes (toLowerCase "") "snow" = false ∧ includes (toLowerCase "") "clear" = false) ∧
    ("" = "" → (clickHandler londonInputs
        { londonEnv with net := .http 200 (.obj [("weather", .arr [.obj [("main", .str "")]])]) }
        (World.start samplePage)).1.page.bodyClasses = ["sunny"]) :=
  sunny_exactly_without_keyword londonInputs
    { londonEnv with net := .http 200 (.obj [("weather", .arr [.obj [("main", .str "")]])]) }
    (World.start samplePage) 200 (.obj [("weather", .arr [.obj [("main", .str "")]])]) ""
    rfl (by decide) (by decide) rfl

/-! ## Payloads of the expected shape -/

theorem weatherMain_of_shaped (data : JsVal) (r : Reading) (h : Shaped data r) :
    weatherMain data = .ok (.str r.main) := by
  obtain ⟨first, rest, block, coord, hw, hm, -⟩ := h
  simp [weatherMain, hw, getFirst, hm, bind, Except.bind]

theorem renderOutput_of_shaped (data : JsVal) (r : Reading) (symbol localTime : String)
    (h : Shaped data r) :
    renderOutput data symbol localTime =
      .ok (weatherBlock r.name (numToString r.temp) symbol (numToString r.humidity)
        r.description localTime) := by
  obtain ⟨first, rest, block, coord, hw, -, hd, hn, -, hb, ht, hh, -⟩ := h
  simp [renderOutput, hw, hd, hn, hb, ht, hh, getFirst, toStr, bind, Except.bind, pure,
    Except.pure]

theorem popupHtml_of_shaped (data : JsVal) (r : Reading) (h : Shaped data r) :
    popupHtml data = .ok ("<b>" ++ r.name ++ "</b><br>Weather: " ++ r.description) := by
  obtain ⟨first, rest, block, coord, hw, -, hd, hn, -⟩ := h
  simp [popupHtml, hw, hd, hn, getFirst, toStr, bind, Except.bind, pure, Except.pure]

theorem localDate_integer (clock : Clock) (tz : Int) :
    localDate clock (.num ⟨tz, 0⟩) =
      timeClip (localInstant clock.now (clock.zone clock.offsetAt) tz) := by
  simp [localDate]

theorem renderStep_of_shaped (inp : Inputs) (env : Env) (data : JsVal) (r : Reading)
    (w : World) (old : String) (h : Shaped data r) (hpanel : w.page.weatherOutput = some old) :
    renderStep inp env data w =
      (w.mutate (setOutput (weatherBlock r.name (numToString r.temp)
        (unitSymbol inp.useFahrenheit) (numToString r.humidity) r.description
        (localTimeText env.clock r.timezone))), none) := by
  have htz : getProp data "timezone" = .ok (.num ⟨r.timezone, 0⟩) := by
    obtain ⟨_, _, _, _, -, -, -, -, htz, -⟩ := h
    exact htz
  unfold renderStep
  simp only [htz, toPrimitive, localDate_integer, renderOutput_of_shaped data r _ _ h, hpanel,
    localTimeText]

theorem mapStep_of_shaped (env : Env) (data : JsVal) (r : Reading) (w : World)
    (h : Shaped data r) :
    mapStep env data w =
      if w.page.mapContainer then
        mapCallsStep env.mapFault data (.num r.lat) (.num r.lon)
          (w.print (.log "Map coordinates:" [.num r.lat, .num r.lon]))
      else
        ((w.print (.log "Map coordinates:" [.num r.lat, .num r.lon])).print
          (.error "Map container not found"), none) := by
  obtain ⟨first, rest, block, coord, -, -, -, -, -, -, -, -, hc, hlat, hlon⟩ := h
  unfold mapStep
  simp only [hc, hlat, hlon]
  rfl

theorem tryBody_of_shaped (inp : Inputs) (env : Env) (w : World) (status : Nat) (data : JsVal)
    (r : Reading) (old : String) (hnet : env.net = .http status data) (hlo : 200 ≤ status)
    (hhi : status < 300) (h : Shaped data r) (hpanel : w.page.weatherOutput = some old) :
    tryBody inp env w =
      mapStep env data
        ((classifyStep (toLowerCase r.main)
          { w with requests := w.requests ++ [url inp.city inp.useFahrenheit] }).mutate
          (setOutput (weatherBlock r.name (numToString r.temp) (unitSymbol inp.useFahrenheit)
            (numToString r.humidity) r.description (localTimeText env.clock r.timezone)))) := by
  have hget : axiosGet env.net = .ok { status := status, data := data } := by
    rw [hnet]; exact axiosGet_success status data hlo hhi
  have hc := readCondition_of_main data r.main (weatherMain_of_shaped data r h)
  have hp : (classifyStep (toLowerCase r.main)
      { w with requests := w.requests ++ [url inp.city inp.useFahrenheit] }).page.weatherOutput
        = some old := by
    rw [classifyStep_page]; exact hpanel
  unfold tryBody
  simp only [hget, hc, renderStep_of_shaped inp env data r _ old h hp]

/-! ## C4, C6, C9 -/

theorem tryBody_requests (inp : Inputs) (env : Env) (w : World) :
    (tryBody inp env w).1.requests = w.requests ++ [url inp.city inp.useFahrenheit] := by
  unfold tryBody
  cases axiosGet env.net with
  | error e => rfl
  | ok resp =>
    dsimp only
    cases readCondition resp.data with
    | error e => rfl
    | ok c =>
      dsimp only
      obtain ⟨-, -, hr, -⟩ := renderStep_frame inp env resp.data
        (classifyStep c { w with requests := w.requests ++ [url inp.city inp.useFahrenheit] })
      cases hs : renderStep inp env resp.data
        (classifyStep c { w with requests := w.requests ++ [url inp.city inp.useFahrenheit] }) with
      | mk w' oe =>
        rw [hs] at hr
        cases oe with
        | some e => exact hr
        | none =>
          dsimp only at hr ⊢
          rw [(mapStep_frame env resp.data w').2.2]
          exact hr

theorem clickHandler_requests (inp : Inputs) (env : Env) (w : World) :
    (clickHandler inp env w).1.requests =
      w.requests ++ [url inp.city inp.useFahrenheit] := by
  have h := tryBody_requests inp env w
  unfold clickHandler
  cases ht : tryBody inp env w with
  | mk w' oe =>
    rw [ht] at h
    cases oe with
    | none => exact h
    | some e =>
      dsimp only at h ⊢
      rw [(catchClause_frame e w').2.2.1]
      exact h

theorem clickHandler_history_of_tryBody (inp : Inputs) (env : Env) (w : World) :
    ∃ extra, (clickHandler inp env w).1.history = (tryBody inp env w).1.history ++ extra := by
  unfold clickHandler
  cases tryBody inp env w with
  | mk w' oe =>
    cases oe with
    | none => exact ⟨[], by simp⟩
    | some e =>
      obtain ⟨-, -, -, extra, ch, -⟩ := catchClause_frame e w'
      exact ⟨extra, ch⟩

/-- C4: the handler passes to `axios.get` exactly the address made of the fixed prefix, the
city as typed, the key and `imperial` (toggle on) or `metric` (toggle off); and the block it
renders for a payload of the expected shape carries `°F` when the toggle is on and `°C` when
it is off, whatever the payload holds. -/
theorem request_url_and_symbol (inp : Inputs) (env : Env) (w : World) :
    (clickHandler inp env w).1.requests =
      w.requests ++ ["https://api.openweathermap.org/data/2.5/weather?q=" ++ inp.city ++
        "&appid=" ++ apiKey ++ "&units=" ++ (if inp.useFahrenheit then "imperial" else "metric")] ∧
    ∀ (status : Nat) (data : JsVal) (r : Reading) (old : String),
      env.net = .http status data → 200 ≤ status → status < 300 → Shaped data r →
      w.page.weatherOutput = some old →
      ∃ p ∈ newSnapshots w (clickHandler inp env w).1,
        p.weatherOutput = some (weatherBlock r.name (numToString r.temp)
          (if inp.useFahrenheit then "°F" else "°C") (numToString r.humidity) r.description
          (localTimeText env.clock r.timezone)) := by
  refine ⟨clickHandler_requests inp env w, ?_⟩
  intro status data r old hnet hlo hhi hshape hpanel
  obtain ⟨extra, hx⟩ := clickHandler_history_of_tryBody inp env w
  rw [tryBody_of_shaped inp env w status data r old hnet hlo hhi hshape hpanel,
    (mapStep_frame _ _ _).2.1] at hx
  simp only [World.mutate, classifyStep_history, classifyStep_page, List.append_assoc] at hx
  rw [newSnapshots_of_history _ _ _ hx]
  refine ⟨setOutput (weatherBlock r.name (numToString r.temp) (unitSymbol inp.useFahrenheit)
    (numToString r.humidity) r.description (localTimeText env.clock r.timezone))
    { bodyClasses := [classify (toLowerCase r.main)], weatherOutput := w.page.weatherOutput,
      mapContainer := w.page.mapContainer }, by simp, rfl⟩

/-- A run in which no map-library call throws, as on the first successful click on a page: for
a successful response of the expected shape, with the result panel and the map container
present, the handler leaves exactly:
the body class chosen for `weather[0].main`; the result panel holding the block with name,
temperature and unit symbol, humidity, description and local time in this order, the values
as the payload gives them; one map on the container, centred on `(lat, lon)` at zoom 13, one
tile layer and one marker at `(lat, lon)` with its popup opened; and nothing leaves the
handler. -/
theorem shaped_response_renders_block_and_marker (inp : Inputs) (env : Env) (w : World)
    (status : Nat) (data : JsVal) (r : Reading) (old : String)
    (hnet : env.net = .http status data) (hlo : 200 ≤ status) (hhi : status < 300)
    (hshape : Shaped data r) (hpanel : w.page.weatherOutput = some old)
    (hmap : w.page.mapContainer = true) (hfault : env.mapFault = none) :
    clickHandler inp env w =
      ({ page :=
          { bodyClasses := [classify (toLowerCase r.main)],
            weatherOutput := some (weatherBlock r.name (numToString r.temp)
              (unitSymbol inp.useFahrenheit) (numToString r.humidity) r.description
              (localTimeText env.clock r.timezone)),
            mapContainer := true },
         console := w.console ++
          [.log "Map coordinates:" [.num r.lat, .num r.lon], .log "Map initialized" []],
         mapCalls := w.mapCalls ++
          [.map "map", .setView (.num r.lat) (.num r.lon) 13,
           .tileLayer tileUrl tileAttribution, .addTileLayer,
           .marker (.num r.lat) (.num r.lon), .addMarker,
           .bindPopup ("<b>" ++ r.name ++ "</b><br>Weather: " ++ r.description), .openPopup],
         requests := w.requests ++ [url inp.city inp.useFahrenheit],
         history := w.history ++
          [{ w.page with bodyClasses := [] },
           { w.page with bodyClasses := [classify (toLowerCase r.main)] },
           { bodyClasses := [classify (toLowerCase r.main)],
             weatherOutput := some (weatherBlock r.name (numToString r.temp)
              (unitSymbol inp.useFahrenheit) (numToString r.humidity) r.description
              (localTimeText env.clock r.timezone)),
             mapContainer := true }] }, none) := by
  unfold clickHandler
  rw [tryBody_of_shaped inp env w status data r old hnet hlo hhi hshape hpanel,
    mapStep_of_shaped env data r _ hshape]
  simp [World.mutate, World.print, World.invoke, classifyStep, clearBodyClass, classListAdd,
    setOutput, mapCallsStep, popupHtml_of_shaped data r hshape, hfault, hmap]

theorem londonData_shaped : Shaped londonData londonReading :=
  ⟨_, _, _, _, rfl, rfl, rfl, rfl, rfl, rfl, rfl, rfl, rfl, rfl, rfl⟩

theorem shaped_response_renders_block_and_marker_witness :
    clickHandler londonInputs londonEnv (World.start samplePage) =
      ({ page :=
          { bodyClasses := ["rainy"],
            weatherOutput := some ("\n        <h2>Weather in London</h2>" ++
              "\n        <p>Temperature: 15°C</p>" ++
              "\n        <p>Humidity: 70%</p>" ++
              "\n        <p>Conditions: light rain</p>" ++
              "\n        <p>Local Time: 05:00</p>\n      "),
            mapContainer := true },
         console :=
          [.log "Map coordinates:" [.num ⟨515, 1⟩, .num ⟨-12, 2⟩], .log "Map initialized" []],
         mapCalls :=
          [.map "map", .setView (.num ⟨515, 1⟩) (.num ⟨-12, 2⟩) 13,
           .tileLayer tileUrl tileAttribution, .addTileLayer,
           .marker (.num ⟨515, 1⟩) (.num ⟨-12, 2⟩), .addMarker,
           .bindPopup "<b>London</b><br>Weather: light rain", .openPopup],
         requests :=
          ["https://api.openweathermap.org/data/2.5/weather?q=London" ++
            "&appid=5fde1ec2900ff8ad6c9c9f28b0b7d060&units=metric"],
         history :=
          [samplePage, { samplePage with bodyClasses := [] },
           { samplePage with bodyClasses := ["rainy"] },
           { bodyClasses := ["rainy"],
             weatherOutput := some ("\n        <h2>Weather in London</h2>" ++
              "\n        <p>Temperature: 15°C</p>" ++
              "\n        <p>Humidity: 70%</p>" ++
              "\n        <p>Conditions: light rain</p>" ++
              "\n        <p>Local Time: 05:00</p>\n      "),
             mapContainer := true }] }, none) :=
  (shaped_response_renders_block_and_marker londonInputs londonEnv (World.start samplePage) 200
    londonData londonReading "" rfl (by decide) (by decide) londonData_shaped rfl rfl rfl).trans
    rfl

/-- With the London payload, the toggle off and both containers present, a throwing
`L.map('map')` leaves the result panel with the error text and no marker. -/
theorem marker_missing_when_map_call_throws :
    Shaped londonData londonReading ∧ samplePage.weatherOutput = some "" ∧
    samplePage.mapContainer = true ∧
    (clickHandler londonInputs { londonEnv with mapFault := some 0 }
      (World.start samplePage)).1.page.weatherOutput = some errorMessage ∧
    (clickHandler londonInputs { londonEnv with mapFault := some 0 }
      (World.start samplePage)).1.mapCalls = [.map "map"] :=
  ⟨londonData_shaped, rfl, rfl, rfl, rfl⟩

/-- On a container that already holds a map, a successful response of the expected shape ends
with the error text in the result panel and one more map-library call, the `L.map('map')`
that throws: no view is set and no marker is created. -/
theorem click_on_initialised_container (inp : Inputs) (env : Env) (w : World)
    (status : Nat) (data : JsVal) (r : Reading) (old : String)
    (hnet : env.net = .http status data) (hlo : 200 ≤ status) (hhi : status < 300)
    (hshape : Shaped data r) (hpanel : w.page.weatherOutput = some old)
    (hmap : w.page.mapContainer = true) (hinit : mapInitialised w = true) :
    (clickWithLeaflet inp env w).1.page.weatherOutput = some errorMessage ∧
    (clickWithLeaflet inp env w).1.page.bodyClasses = [classify (toLowerCase r.main)] ∧
    (clickWithLeaflet inp env w).1.mapCalls = w.mapCalls ++ [.map "map"] ∧
    (clickWithLeaflet inp env w).1.console = w.console ++
      [.log "Map coordinates:" [.num r.lat, .num r.lon], .errorValue (.mapLibrary 0)] ∧
    (clickWithLeaflet inp env w).2 = none := by
  unfold clickWithLeaflet clickHandler
  rw [tryBody_of_shaped inp { env with mapFault := leafletFault w env } w status data r old hnet
    hlo hhi hshape hpanel, mapStep_of_shaped _ data r _ hshape]
  simp [World.mutate, World.print, World.invoke, classifyStep, clearBodyClass, classListAdd,
    setOutput, mapCallsStep, leafletFault, hinit, hmap, catchClause]

/-- C6: two clicks in a row on a page with both containers, the toggle off, both answered 200
with the London payload.  The first run leaves the weather block and one marker at
`(51.5, -0.12)`.  The second run calls `L.map('map')` again (line 56) on the container that
now holds the first map: the call throws, the result panel ends with the error text, and the
run sets no view and places no marker. -/
theorem second_successful_click_places_no_marker :
    Shaped londonData londonReading ∧ samplePage.weatherOutput = some "" ∧
    samplePage.mapContainer = true ∧
    (clickWithLeaflet londonInputs londonEnv (World.start samplePage)).1.page.weatherOutput =
      some ("\n        <h2>Weather in London</h2>" ++
        "\n        <p>Temperature: 15°C</p>" ++
        "\n        <p>Humidity: 70%</p>" ++
        "\n        <p>Conditions: light rain</p>" ++
        "\n        <p>Local Time: 05:00</p>\n      ") ∧
    (clickWithLeaflet londonInputs londonEnv (World.start samplePage)).1.mapCalls =
      [.map "map", .setView (.num ⟨515, 1⟩) (.num ⟨-12, 2⟩) 13,
       .tileLayer tileUrl tileAttribution, .addTileLayer,
       .marker (.num ⟨515, 1⟩) (.num ⟨-12, 2⟩), .addMarker,
       .bindPopup "<b>London</b><br>Weather: light rain", .openPopup] ∧
    (runWithLeaflet
      [{ inp := londonInputs, env := londonEnv }, { inp := londonInputs, env := londonEnv }]
      (World.start samplePage)).page =
      { bodyClasses := ["rainy"],
        weatherOutput := some "<p>City not found or error fetching data.</p>",
        mapContainer := true } ∧
    (runWithLeaflet
      [{ inp := londonInputs, env := londonEnv }, { inp := londonInputs, env := londonEnv }]
      (World.start samplePage)).mapCalls =
      [.map "map", .setView (.num ⟨515, 1⟩) (.num ⟨-12, 2⟩) 13,
       .tileLayer tileUrl tileAttribution, .addTileLayer,
       .marker (.num ⟨515, 1⟩) (.num ⟨-12, 2⟩), .addMarker,
       .bindPopup "<b>London</b><br>Weather: light rain", .openPopup,
       .map "map"] ∧
    (runWithLeaflet
      [{ inp := londonInputs, env := londonEnv }, { inp := londonInputs, env := londonEnv }]
      (World.start samplePage)).console =
      [.log "Map coordinates:" [.num ⟨515, 1⟩, .num ⟨-12, 2⟩], .log "Map initialized" [],
       .log "Map coordinates:" [.num ⟨515, 1⟩, .num ⟨-12, 2⟩],
       .errorValue (.mapLibrary 0)] :=
  ⟨londonData_shaped, rfl, rfl, rfl, rfl, rfl, rfl, rfl⟩

/-- C9: for a successful response of the expected shape on a page with a result panel and
without an element `map`, the body of `try` throws nothing, the handler lets nothing out,
makes no map-library call, leaves the weather block in the result panel and the body class
chosen for `weather[0].main`, and writes to the console the coordinates and the line
`Map container not found`. -/
theorem missing_map_container_only_logs (inp : Inputs) (env : Env) (w : World)
    (status : Nat) (data : JsVal) (r : Reading) (old : String)
    (hnet : env.net = .http status data) (hlo : 200 ≤ status) (hhi : status < 300)
    (hshape : Shaped data r) (hpanel : w.page.weatherOutput = some old)
    (hnomap : w.page.mapContainer = false) :
    (tryBody inp env w).2 = none ∧
    clickHandler inp env w =
      ({ page :=
          { bodyClasses := [classify (toLowerCase r.main)],
            weatherOutput := some (weatherBlock r.name (numToString r.temp)
              (unitSymbol inp.useFahrenheit) (numToString r.humidity) r.description
              (localTimeText env.clock r.timezone)),
            mapContainer := false },
         console := w.console ++
          [.log "Map coordinates:" [.num r.lat, .num r.lon], .error "Map container not found"],
         mapCalls := w.mapCalls,
         requests := w.requests ++ [url inp.city inp.useFahrenheit],
         history := w.history ++
          [{ w.page with bodyClasses := [] },
           { w.page with bodyClasses := [classify (toLowerCase r.main)] },
           { bodyClasses := [classify (toLowerCase r.main)],
             weatherOutput := some (weatherBlock r.name (numToString r.temp)
              (unitSymbol inp.useFahrenheit) (numToString r.humidity) r.description
              (localTimeText env.clock r.timezone)),
             mapContainer := false }] }, none) := by
  unfold clickHandler
  rw [tryBody_of_shaped inp env w status data r old hnet hlo hhi hshape hpanel,
    mapStep_of_shaped env data r _ hshape]
  simp [World.mutate, World.print, classifyStep, clearBodyClass, classListAdd,
    setOutput, hnomap]

theorem missing_map_container_only_logs_witness :
    (tryBody londonInputs londonEnv (World.start { samplePage with mapContainer := false })).2 = none ∧
    clickHandler londonInputs londonEnv (World.start { samplePage with mapContainer := false }) =
      ({ page :=
          { bodyClasses := ["rainy"],
            weatherOutput := some ("\n        <h2>Weather in London</h2>" ++
              "\n        <p>Temperature: 15°C</p>" ++
              "\n        <p>Humidity: 70%</p>" ++
              "\n        <p>Conditions: light rain</p>" ++
              "\n        <p>Local Time: 05:00</p>\n      "),
            mapContainer := false },
         console :=
          [.log "Map coordinates:" [.num ⟨515, 1⟩, .num ⟨-12, 2⟩],
           .error "Map container not found"],
         mapCalls := [],
         requests :=
          ["https://api.openweathermap.org/data/2.5/weather?q=London" ++
            "&appid=5fde1ec2900ff8ad6c9c9f28b0b7d060&units=metric"],
         history :=
          [{ samplePage with mapContainer := false },
           { samplePage with bodyClasses := [], mapContainer := false },
           { samplePage with bodyClasses := ["rainy"], mapContainer := false },
           { bodyClasses := ["rainy"],
             weatherOutput := some ("\n        <h2>Weather in London</h2>" ++
              "\n        <p>Temperature: 15°C</p>" ++
              "\n        <p>Humidity: 70%</p>" ++
              "\n        <p>Conditions: light rain</p>" ++
              "\n        <p>Local Time: 05:00</p>\n      "),
             mapContainer := false }] }, none) :=
  (missing_map_container_only_logs londonInputs londonEnv
    (World.start { samplePage with mapContainer := false }) 200 londonData londonReading "" rfl
    (by decide) (by decide) londonData_shaped rfl rfl).imp id (fun h => h.trans rfl)

/-! ## C7, C8: failures -/

theorem tryBody_panel (inp : Inputs) (env : Env) (w : World)
    (hpanel : w.page.weatherOutput.isSome) :
    (tryBody inp env w).1.page.weatherOutput.isSome := by
  unfold tryBody
  cases axiosGet env.net with
  | error e => exact hpanel
  | ok resp =>
    dsimp only
    cases readCondition resp.data with
    | error e => exact hpanel
    | ok c =>
      dsimp only
      obtain ⟨-, -, -, hs, -⟩ := renderStep_frame inp env resp.data
        (classifyStep c { w with requests := w.requests ++ [url inp.city inp.useFahrenheit] })
      have hs' := hs (by rw [classifyStep_page]; exact hpanel)
      cases hr : renderStep inp env resp.data
        (classifyStep c { w with requests := w.requests ++ [url inp.city inp.useFahrenheit] }) with
      | mk w' oe =>
        rw [hr] at hs'
        cases oe with
        | some e => exact hs'
        | none =>
          dsimp only at hs' ⊢
          rw [(mapStep_frame env resp.data w').1]
          exact hs'

theorem catchClause_with_panel (e : Err) (w : World) (hpanel : w.page.weatherOutput.isSome) :
    catchClause e w = ((w.mutate (setOutput errorMessage)).print (.errorValue e), none) := by
  unfold catchClause
  cases h : w.page.weatherOutput with
  | none => rw [h] at hpanel; simp at hpanel
  | some old => rfl

/-- C7: on a page with a result panel, whenever a step of the body of `try` throws `e` (the
GET included), the handler ends with the result panel holding exactly the error text, the
console extended by the line for `e`, and nothing leaving the handler. -/
theorem failure_ends_with_error_message (inp : Inputs) (env : Env) (w : World) (old : String)
    (e : Err) (hpanel : w.page.weatherOutput = some old)
    (hfail : (tryBody inp env w).2 = some e) :
    (clickHandler inp env w).1.page.weatherOutput =
      some "<p>City not found or error fetching data.</p>" ∧
    (clickHandler inp env w).1.console = (tryBody inp env w).1.console ++ [.errorValue e] ∧
    (clickHandler inp env w).2 = none := by
  have hp := tryBody_panel inp env w (by rw [hpanel]; rfl)
  unfold clickHandler
  cases ht : tryBody inp env w with
  | mk w' oe =>
    rw [ht] at hfail hp
    dsimp only at hfail hp
    subst hfail
    dsimp only
    rw [catchClause_with_panel e w' hp]
    exact ⟨rfl, rfl, rfl⟩

/-- The listed failures do make the body of `try` throw: a GET that rejects. -/
theorem tryBody_throws_of_rejection (inp : Inputs) (env : Env) (w : World) (e : Err)
    (hget : axiosGet env.net = .error e) : (tryBody inp env w).2 = some e := by
  rw [tryBody_rejected inp env w e hget]

theorem axiosGet_noResponse : axiosGet .noResponse = .error .network := rfl

theorem axiosGet_badStatus (status : Nat) (data : JsVal) (h : ¬ (200 ≤ status ∧ status < 300)) :
    axiosGet (.http status data) = .error (.badStatus status) := by
  simp only [axiosGet, h, if_false]

theorem getProp_undefined (key : String) :
    getProp .undefined key =
      .error (.typeError ("Cannot read properties of undefined (reading " ++ key ++ ")")) := rfl

/-- The listed failures do make the body of `try` throw: no `weather[0]`. -/
theorem readCondition_without_first (data weather : JsVal)
    (hw : getProp data "weather" = .ok weather) (hf : getFirst weather = .ok .undefined) :
    ∃ e, readCondition data = .error e := by
  simp [readCondition, weatherMain, hw, hf, getProp_undefined, bind, Except.bind]

/-- The listed failures do make the body of `try` throw: `weather[0]` without `main`. -/
theorem readCondition_without_condition (data weather first : JsVal)
    (hw : getProp data "weather" = .ok weather) (hf : getFirst weather = .ok first)
    (hm : getProp first "main" = .ok .undefined) :
    ∃ e, readCondition data = .error e := by
  simp [readCondition, weatherMain, hw, hf, hm, callToLowerCase, bind, Except.bind]

theorem tryBody_throws_of_unreadable (inp : Inputs) (env : Env) (w : World) (resp : Response)
    (e : Err) (hget : axiosGet env.net = .ok resp) (hc : readCondition resp.data = .error e) :
    (tryBody inp env w).2 = some e := by
  rw [tryBody_unreadable inp env w resp e hget hc]

theorem renderOutput_without_main (data : JsVal) (symbol localTime : String)
    (hm : getProp data "main" = .ok .undefined) :
    ∃ e, renderOutput data symbol localTime = .error e := by
  unfold renderOutput
  cases hn : getProp data "name" with
  | error e => exact ⟨e, by simp [bind, Except.bind]⟩
  | ok name =>
    cases hs : toStr name with
    | error e => exact ⟨e, by simp [hs, bind, Except.bind]⟩
    | ok s => exact ⟨_, by simp only [hs, hm, getProp_undefined, bind, Except.bind]; rfl⟩

/-- The listed failures do make the body of `try` throw: a payload without `main`. -/
theorem tryBody_throws_without_main (inp : Inputs) (env : Env) (w : World) (resp : Response)
    (hget : axiosGet env.net = .ok resp) (hm : getProp resp.data "main" = .ok .undefined) :
    ∃ e, (tryBody inp env w).2 = some e := by
  cases hc : readCondition resp.data with
  | error e => exact ⟨e, tryBody_throws_of_unreadable inp env w resp e hget hc⟩
  | ok c =>
    unfold tryBody
    simp only [hget, hc]
    unfold renderStep
    cases getProp resp.data "timezone" with
    | error e => exact ⟨e, rfl⟩
    | ok tz =>
      dsimp only
      cases toPrimitive tz with
      | error e => exact ⟨e, rfl⟩
      | ok u =>
        dsimp only
        obtain ⟨e, he⟩ := renderOutput_without_main resp.data (unitSymbol inp.useFahrenheit)
          (toLocaleTimeString env.clock (localDate env.clock tz)) hm
        rw [he]
        exact ⟨e, rfl⟩

/-- The listed failures do make the body of `try` throw: a payload without `coord`. -/
theorem tryBody_throws_without_coord (inp : Inputs) (env : Env) (w : World) (resp : Response)
    (hget : axiosGet env.net = .ok resp) (hco : getProp resp.data "coord" = .ok .undefined) :
    ∃ e, (tryBody inp env w).2 = some e := by
  cases hc : readCondition resp.data with
  | error e => exact ⟨e, tryBody_throws_of_unreadable inp env w resp e hget hc⟩
  | ok c =>
    unfold tryBody
    simp only [hget, hc]
    cases renderStep inp env resp.data
      (classifyStep c { w with requests := w.requests ++ [url inp.city inp.useFahrenheit] }) with
    | mk w' oe =>
      cases oe with
      | some e => exact ⟨e, rfl⟩
      | none =>
        dsimp only
        unfold mapStep
        simp only [hco, getProp_undefined]
        exact ⟨_, rfl⟩

/-- The listed failures do make the body of `try` throw: a map-library call that throws. -/
theorem tryBody_throws_of_map_fault (inp : Inputs) (env : Env) (w : World) (status : Nat)
    (data : JsVal) (r : Reading) (old : String) (k : Nat)
    (hnet : env.net = .http status data) (hlo : 200 ≤ status) (hhi : status < 300)
    (hshape : Shaped data r) (hpanel : w.page.weatherOutput = some old)
    (hmap : w.page.mapContainer = true) (hfault : env.mapFault = some k) (hk : k < 8) :
    (tryBody inp env w).2 = some (.mapLibrary k) := by
  rw [tryBody_of_shaped inp env w status data r old hnet hlo hhi hshape hpanel,
    mapStep_of_shaped env data r _ hshape]
  have hm : (World.mutate (setOutput (weatherBlock r.name (numToString r.temp)
      (unitSymbol inp.useFahrenheit) (numToString r.humidity) r.description
      (localTimeText env.clock r.timezone)))
      (classifyStep (toLowerCase r.main)
        { w with requests := w.requests ++ [url inp.city inp.useFahrenheit] })).page.mapContainer
        = true := by
    simp [World.mutate, setOutput, classifyStep, clearBodyClass, classListAdd, hmap]
  rw [if_pos hm, hfault]
  interval_cases k <;> simp [mapCallsStep, popupHtml_of_shaped data r hshape]

theorem failure_ends_with_error_message_witness :
    ((clickHandler londonInputs { londonEnv with net := .http 200 londonNoCoord }
        (World.start samplePage)).1.page.weatherOutput =
        some "<p>City not found or error fetching data.</p>" ∧
      (clickHandler londonInputs { londonEnv with net := .http 200 londonNoCoord }
        (World.start samplePage)).1.console =
        (tryBody londonInputs { londonEnv with net := .http 200 londonNoCoord }
          (World.start samplePage)).1.console ++
          [.errorValue (.typeError "Cannot read properties of undefined (reading lat)")] ∧
      (clickHandler londonInputs { londonEnv with net := .http 200 londonNoCoord }
        (World.start samplePage)).2 = none) ∧
    (newSnapshots (World.start samplePage)
      (clickHandler londonInputs { londonEnv with net := .http 200 londonNoCoord }
        (World.start samplePage)).1).map (fun p => p.weatherOutput) =
      [some "", some "",
       some ("\n        <h2>Weather in London</h2>" ++
          "\n        <p>Temperature: 15°C</p>" ++
          "\n        <p>Humidity: 70%</p>" ++
          "\n        <p>Conditions: light rain</p>" ++
          "\n        <p>Local Time: 05:00</p>\n      "),
       some "<p>City not found or error fetching data.</p>"] :=
  ⟨failure_ends_with_error_message londonInputs { londonEnv with net := .http 200 londonNoCoord }
    (World.start samplePage) "" (.typeError "Cannot read properties of undefined (reading lat)")
    rfl rfl, rfl⟩

/-- C8: when the GET rejects, the body's class list is after the run, and in every page
state of the run, what it was before; no map-library call is made; and a result panel that
exists ends with the error text. -/
theorem rejected_get_keeps_body_class (inp : Inputs) (env : Env) (w : World) (e : Err)
    (hrej : axiosGet env.net = .error e) :
    (clickHandler inp env w).1.page.bodyClasses = w.page.bodyClasses ∧
    (∀ p ∈ newSnapshots w (clickHandler inp env w).1, p.bodyClasses = w.page.bodyClasses) ∧
    (clickHandler inp env w).1.mapCalls = w.mapCalls ∧
    (∀ old, w.page.weatherOutput = some old →
      (clickHandler inp env w).1.page.weatherOutput =
        some "<p>City not found or error fetching data.</p>") := by
  obtain ⟨hb, hm, extra, hh, hx⟩ :=
    clickHandler_unclassified inp env w e (tryBody_rejected inp env w e hrej)
  refine ⟨hb, ?_, hm, ?_⟩
  · rw [newSnapshots_of_history _ _ _ hh]
    exact hx
  · intro old hpanel
    unfold clickHandler
    rw [tryBody_rejected inp env w e hrej]
    dsimp only
    rw [catchClause_with_panel e _ (by show w.page.weatherOutput.isSome = true; rw [hpanel]; rfl)]
    rfl

theorem rejected_get_keeps_body_class_witness :
    (clickHandler londonInputs { londonEnv with net := .noResponse }
      (World.start samplePage)).1.page.bodyClasses = samplePage.bodyClasses ∧
    (∀ p ∈ newSnapshots (World.start samplePage)
        (clickHandler londonInputs { londonEnv with net := .noResponse }
          (World.start samplePage)).1,
      p.bodyClasses = samplePage.bodyClasses) ∧
    (clickHandler londonInputs { londonEnv with net := .noResponse }
      (World.start samplePage)).1.mapCalls = [] ∧
    (∀ old, samplePage.weatherOutput = some old →
      (clickHandler londonInputs { londonEnv with net := .noResponse }
        (World.start samplePage)).1.page.weatherOutput =
        some "<p>City not found or error fetching data.</p>") :=
  rejected_get_keeps_body_class londonInputs { londonEnv with net := .noResponse }
    (World.start samplePage) .network rfl

/-! ## C10: the invariant of the body class -/

theorem atMostOne_nil : AtMostOneCondition [] := by
  simp [AtMostOneCondition]

theorem atMostOne_single (c : String) : AtMostOneCondition [c] := by
  unfold AtMostOneCondition
  exact (List.length_filter_le _ _).trans (by simp)

theorem clickHandler_invariant (inp : Inputs) (env : Env) (w : World)
    (hpage : AtMostOneCondition w.page.bodyClasses)
    (hhist : ∀ p ∈ w.history, AtMostOneCondition p.bodyClasses) :
    AtMostOneCondition (clickHandler inp env w).1.page.bodyClasses ∧
    ∀ p ∈ (clickHandler inp env w).1.history, AtMostOneCondition p.bodyClasses := by
  rcases tryBody_cases inp env w with ⟨e, ht⟩ | ⟨resp, c, hget, hc⟩
  · obtain ⟨hb, -, extra, hh, hx⟩ := clickHandler_unclassified inp env w e ht
    refine ⟨by rw [hb]; exact hpage, ?_⟩
    intro p hp
    rw [hh] at hp
    rcases List.mem_append.mp hp with h | h
    · exact hhist p h
    · rw [hx p h]; exact hpage
  · obtain ⟨hb, rest, hh, hx⟩ := clickHandler_classified inp env w resp c hget hc
    refine ⟨by rw [hb]; exact atMostOne_single _, ?_⟩
    intro p hp
    rw [hh] at hp
    rcases List.mem_append.mp hp with h | h
    · exact hhist p h
    · rcases List.mem_cons.mp h with h | h
      · rw [h]; exact atMostOne_nil
      · rcases List.mem_cons.mp h with h | h
        · rw [h]; exact atMostOne_single _
        · rw [hx p h]; exact atMostOne_single _

theorem runClicks_invariant (clicks : List Click) :
    ∀ w : World, AtMostOneCondition w.page.bodyClasses →
      (∀ p ∈ w.history, AtMostOneCondition p.bodyClasses) →
      AtMostOneCondition (runClicks clicks w).page.bodyClasses ∧
      ∀ p ∈ (runClicks clicks w).history, AtMostOneCondition p.bodyClasses := by
  induction clicks with
  | nil => intro w hpage hhist; exact ⟨hpage, hhist⟩
  | cons c cs ih =>
    intro w hpage hhist
    obtain ⟨h1, h2⟩ := clickHandler_invariant c.inp c.env w hpage hhist
    exact ih _ h1 h2

/-- C10: starting from a page whose body carries at most one condition class, after every
sequence of clicks, whatever each GET and each later step does, the body carries at most one
condition class, and so did the body in every page state reached on the way; and a run that
reaches the classification adds first a page state whose body has no class at all and then
one whose class list is a single class of the closed set. -/
theorem at_most_one_condition_class (start : Page) (clicks : List Click)
    (hstart : AtMostOneCondition start.bodyClasses) :
    AtMostOneCondition (runClicks clicks (World.start start)).page.bodyClasses ∧
    (∀ p ∈ (runClicks clicks (World.start start)).history,
      AtMostOneCondition p.bodyClasses) ∧
    ∀ (inp : Inputs) (env : Env) (w : World) (resp : Response) (c : String),
      axiosGet env.net = .ok resp → readCondition resp.data = .ok c →
      ∃ cleared classified rest,
        newSnapshots w (clickHandler inp env w).1 = cleared :: classified :: rest ∧
        cleared.bodyClasses = [] ∧ classified.bodyClasses = [classify c] ∧
        classify c ∈ conditionClasses := by
  obtain ⟨h1, h2⟩ := runClicks_invariant clicks (World.start start) hstart
    (by intro p hp; simp [World.start] at hp; rw [hp]; exact hstart)
  refine ⟨h1, h2, ?_⟩
  intro inp env w resp c hget hc
  obtain ⟨-, rest, hh, -⟩ := clickHandler_classified inp env w resp c hget hc
  exact ⟨_, _, rest, newSnapshots_of_history _ _ _ hh, rfl, rfl, classify_mem c⟩

theorem at_most_one_condition_class_witness :
    AtMostOneCondition samplePage.bodyClasses ∧
    AtMostOneCondition (runClicks
      [{ inp := londonInputs, env := londonEnv },
       { inp := londonInputs, env := { londonEnv with net := .noResponse } },
       { inp := londonInputs, env := { londonEnv with net := .http 200 cloudsData } }]
      (World.start samplePage)).page.bodyClasses ∧
    (∀ p ∈ (runClicks
      [{ inp := londonInputs, env := londonEnv },
       { inp := londonInputs, env := { londonEnv with net := .noResponse } },
       { inp := londonInputs, env := { londonEnv with net := .http 200 cloudsData } }]
      (World.start samplePage)).history, AtMostOneCondition p.bodyClasses) :=
  ⟨by decide,
   (at_most_one_condition_class samplePage
    [{ inp := londonInputs, env := londonEnv },
     { inp := londonInputs, env := { londonEnv with net := .noResponse } },
     { inp := londonInputs, env := { londonEnv with net := .http 200 cloudsData } }]
    (by decide)).1,
   (at_most_one_condition_class samplePage
    [{ inp := londonInputs, env := londonEnv },
     { inp := londonInputs, env := { londonEnv with net := .noResponse } },
     { inp := londonInputs, env := { londonEnv with net := .http 200 cloudsData } }]
    (by decide)).2.1⟩

/-! ## C5: the local time -/

/-- Where the zone rule gives at the shifted instant the offset read on line 35, the time
shown is the UTC wall clock of `now + tz * 1000`. -/
theorem displayed_is_city_time_of_steady_zone (zone : Int → Int) (now off tz : Int)
    (hz : zone (localInstant now off tz) = off) :
    displayedHM zone (localInstant now off tz) = wallClock (now + tz * 1000) := by
  unfold displayedHM
  rw [hz]
  unfold localInstant utc
  congr 1
  ring

/-- C5: in a browser in New York at 2024-11-03 05:00 UTC, for a city offset of 0 seconds,
the instant handed to the formatter is `now + 240 * 60000`; the zone rule gives 300 minutes
there, the handler shows `04:00`, and the UTC wall clock of `now` reads 05:00. -/
theorem local_time_off_across_zone_change :
    newYorkClock.zone newYorkClock.offsetAt = 240 ∧
    localDate newYorkClock (.num ⟨0, 0⟩) = some (1730610000000 + 240 * 60000 + 0 * 1000) ∧
    newYorkZone (1730610000000 + 240 * 60000 + 0 * 1000) = 300 ∧
    toLocaleTimeString newYorkClock (localDate newYorkClock (.num ⟨0, 0⟩)) = "04:00" ∧
    displayedHM newYorkZone (localInstant 1730610000000 240 0) = (4, 0) ∧
    wallClock (1730610000000 + 0 * 1000) = (5, 0) := by
  decide

end WeatherApp
